import Mathlib

/-!
Shallow embedding of `src/autobuilder.py` (class `AutoBuilder`).

The program's effects are modelled explicitly:
* `Env` fixes the facts about the host system: which executables are
  present (`shutil.which`), and for each shell command (with optional
  working directory) its exit code, captured stdout and captured stderr.
* `St` is the mutable state threaded through a run: the remaining lines
  of standard input, and the trace of observable events so far.
* `M α` is the computation type: given an `Env` and a starting `St`, a
  computation either returns a value (`Except.ok`) or terminates the
  whole process with an exit status (`Except.error code`, modelling
  `sys.exit(code)`), together with the final state.

Every method of the Python class is translated to a definition of the
same name; dictionaries become association lists (Python 3.7+ dicts
iterate in insertion order, as the lists do).
-/

namespace AutoBuilder

/-- The immutable facts about the host system a run observes. -/
structure Env where
  which : String → Bool
  exitCode : String → Option String → Nat
  stdout : String → Option String → String
  stderr : String → Option String → String

/-- Observable events of a run, in order: text printed to stdout, an
interactive question shown (the prompt of `input`), a shell command
executed (`subprocess.run`, with its working directory), and a
directory creation (`os.makedirs`, with `exist_ok=True`). -/
inductive Event where
  | print (s : String)
  | ask (q : String)
  | exec (cmd : String) (cwd : Option String)
  | makedirs (dir : String)
deriving DecidableEq, Repr

/-- Threaded state: remaining standard-input lines and the event trace. -/
structure St where
  stdin : List String
  trace : List Event
deriving DecidableEq, Repr

/-- A computation: it may return normally or terminate the process with
an exit status (`sys.exit`). -/
def M (α : Type) : Type := Env → St → Except Nat α × St

instance : Monad M where
  pure a := fun _ s => (Except.ok a, s)
  bind m f := fun env s =>
    match m env s with
    | (Except.ok a, s1) => f a env s1
    | (Except.error c, s1) => (Except.error c, s1)

def emit (e : Event) : M Unit := fun _ s =>
  (Except.ok (), St.mk s.stdin (s.trace ++ [e]))

/-- Python `print(msg)`. -/
def printStr (msg : String) : M Unit := emit (Event.print msg)

/-- Python `sys.exit(1)`. -/
def exit1 {α : Type} : M α := fun _ s => (Except.error 1, s)

def getEnv : M Env := fun env s => (Except.ok env, s)

/-- Read one line from standard input (empty string once exhausted). -/
def readLine : M String := fun _ s =>
  match s.stdin with
  | [] => (Except.ok "", s)
  | l :: rest => (Except.ok l, St.mk rest s.trace)

/-- Python `input(q)`: show the prompt, then read a line. -/
def inputLine (q : String) : M String := do
  emit (Event.ask q)
  readLine

/-- The whitespace characters Python `str.strip()` removes (ASCII range). -/
def pyIsSpace (c : Char) : Bool :=
  c = ' ' || c = '\t' || c = '\n' || c = '\r' || c = '\x0b' || c = '\x0c'

/-- Python `str.strip()`: drop whitespace from both ends, computed on
the character list so that runs evaluate inside the kernel. -/
def strip (s : String) : String :=
  String.mk (((s.data.dropWhile pyIsSpace).reverse.dropWhile pyIsSpace).reverse)

/-- Python `str.lower()` (ASCII case mapping, as `Char.toLower`),
computed on the character list. -/
def lower (s : String) : String :=
  String.mk (s.data.map Char.toLower)

/-- The table `self.package_managers`: manager name ↦ install-command template,
in insertion order. -/
def package_managers : List (String × String) :=
  [("apt", "sudo apt-get install -y"),
   ("brew", "brew install"),
   ("choco", "choco install -y"),
   ("vcpkg", "vcpkg install")]

/-- Method `AutoBuilder.run_command`: run the command; on exit status 0 print
captured stdout and return, on non-zero exit print the captured stderr
and terminate the process with status 1. -/
def run_command (command : String) (cwd : Option String) : M Unit := do
  emit (Event.exec command cwd)
  let env ← getEnv
  if env.exitCode command cwd = 0 then
    printStr (env.stdout command cwd)
  else do
    printStr ("Error: " ++ env.stderr command cwd)
    exit1

/-- Method `AutoBuilder.prompt_install`: ask for consent; on "y" (stripped,
lowercased) run the install command, otherwise terminate with status 1. -/
def prompt_install (tool : String) (install_command : String) : M Unit := do
  let raw ← inputLine (tool ++ " не найден. Установить? (y/n): ")
  let response := lower (strip raw)
  if response = "y" then do
    printStr ("Устанавливаю " ++ tool ++ "...\")\n")
    run_command install_command none
  else do
    printStr (tool ++ " необходим для продолжения. Завершаю работу.")
    exit1

/-- Method `AutoBuilder.get_install_command`: bootstrap command for a manager;
the empty string for anything that is not brew or vcpkg. -/
def get_install_command (manager : String) : String :=
  if manager = "brew" then
    "/bin/bash -c \"$(curl -fsSL https://raw.githubusercontent.com/Homebrew/install/HEAD/install.sh)\""
  else if manager = "vcpkg" then
    "git clone https://github.com/microsoft/vcpkg.git && ./vcpkg/bootstrap-vcpkg.sh"
  else
    ""

/-- The `for pm in self.package_managers` loop of
`detect_or_install_package_manager`: return the first candidate whose
executable is present; past the end, print the diagnostic and fall
through to `sys.exit(1)`. -/
def scan_pms : List (String × String) → M String
  | [] => do
    printStr "Менеджер пакетов не обнаружен."
    exit1
  | p :: rest => do
    let env ← getEnv
    if env.which p.1 then do
      printStr ("Обнаружен менеджер пакетов: " ++ p.1)
      pure p.1
    else
      scan_pms rest

/-- Method `AutoBuilder.detect_or_install_package_manager`. Note the source's
control flow: in the explicit-choice branch, when the executable is
absent, `prompt_install` is called and then control falls through to
the `sys.exit(1)` on the method's last line — the chosen name is never
returned. (`if chosen_pm:` is Python truthiness: `None` and `""` both
select the scan branch.) -/
def detect_or_install_package_manager (chosen_pm : Option String) : M String :=
  match chosen_pm with
  | some pm =>
    if pm.isEmpty then scan_pms package_managers
    else do
      let env ← getEnv
      if env.which pm then do
        printStr ("Используем указанный менеджер пакетов: " ++ pm)
        pure pm
      else do
        prompt_install pm (get_install_command pm)
        exit1
  | none => scan_pms package_managers

/-- The `for package in packages` loop of `install_packages`. -/
def install_loop (install_command : String) (package_manager : String) :
    List String → M Unit
  | [] => pure ()
  | package :: rest => do
    printStr ("Устанавливаю " ++ package ++ " через " ++ package_manager ++ "...")
    run_command (install_command ++ " " ++ package) none
    install_loop install_command package_manager rest

/-- Method `AutoBuilder.install_packages`: look the manager up in the template
table (`dict.get`, `None` when missing; `if not install_command:` is
truthiness, so a missing or empty template is fatal), then install each
package through the template. -/
def install_packages (packages : List String) (package_manager : String) : M Unit := do
  let install_command := ((package_managers.lookup package_manager).getD "")
  if install_command.isEmpty then do
    printStr ("Менеджер пакетов " ++ package_manager ++ " не поддерживается.")
    exit1
  else
    install_loop install_command package_manager packages

/-- Python `os.path.join` for the uses in this program (posix join of two parts). -/
def path_join (a b : String) : String :=
  if b.startsWith "/" then b
  else if a.isEmpty then b
  else if a.endsWith "/" then a ++ b
  else a ++ "/" ++ b

/-- Method `AutoBuilder.setup_python`: installs python3 and pip with the
hardcoded manager "brew", then optionally installs pyinstaller. -/
def setup_python : M Unit := do
  printStr "Настройка Python окружения..."
  install_packages ["python3", "pip"] "brew"
  let raw ← inputLine "Хотите установить pyinstaller для компиляции в бинарный файл? (y/n): "
  let response := lower (strip raw)
  if response = "y" then
    run_command "pip install pyinstaller" none
  else
    pure ()

/-- Method `AutoBuilder.compile_python`: with consent package via pyinstaller,
otherwise run the project through the interpreter. -/
def compile_python (project_path : String) : M Unit := do
  let raw ← inputLine "Скомпилировать Python проект в бинарный файл? (y/n): "
  let response := lower (strip raw)
  if response = "y" then do
    printStr "Компиляция Python в бинарный файл..."
    run_command ("pyinstaller --onefile " ++ project_path) none
  else do
    printStr "Запуск Python проекта..."
    run_command ("python3 " ++ project_path) none

/-- Method `AutoBuilder.setup_cpp`: installs g++ and cmake with the hardcoded
manager "brew". -/
def setup_cpp : M Unit := do
  printStr "Настройка C++ окружения..."
  install_packages ["g++", "cmake"] "brew"

/-- Method `AutoBuilder.compile_cpp`: make the build directory (reusing it if
present), configure with cmake there, then build with make there. -/
def compile_cpp (project_path : String) : M Unit := do
  printStr "Компиляция C++ проекта..."
  let build_dir := path_join project_path "build"
  emit (Event.makedirs build_dir)
  run_command "cmake .." (some build_dir)
  run_command "make" (some build_dir)

/-- Method `AutoBuilder.setup_java`: installs openjdk with the hardcoded
manager "brew". -/
def setup_java : M Unit := do
  printStr "Настройка Java окружения..."
  install_packages ["openjdk"] "brew"

/-- Method `AutoBuilder.compile_java`: compile all `.java` files directly under
the project path, then run class `Main` with the project path as
classpath. -/
def compile_java (project_path : String) : M Unit := do
  printStr "Компиляция Java проекта..."
  run_command ("javac " ++ project_path ++ "/*.java") none
  printStr "Запуск Java проекта..."
  run_command ("java -cp " ++ project_path ++ " Main") none

/-- A language's capability pair, as stored in `self.languages`. -/
structure LanguageHandler where
  setup : M Unit
  compile : String → M Unit

/-- The table `self.languages`: the language registry, in insertion order. -/
def languages : List (String × LanguageHandler) :=
  [("python", LanguageHandler.mk setup_python compile_python),
   ("cpp", LanguageHandler.mk setup_cpp compile_cpp),
   ("java", LanguageHandler.mk setup_java compile_java)]

/-- Method `AutoBuilder.auto_build`: fail fast on an unsupported language, then
resolve the package manager (its result is bound but never used), then
run the handler's setup and compile. -/
def auto_build (language project_path : String) (package_manager : Option String) : M Unit :=
  match languages.lookup language with
  | none => do
    printStr ("Неподдерживаемый язык: " ++ language)
    exit1
  | some handler => do
    let _pm ← detect_or_install_package_manager package_manager
    handler.setup
    handler.compile project_path

/-! Evaluation lemmas for the computation type. -/

theorem bind_eval {α β : Type} (m : M α) (f : α → M β) (env : Env) (s : St) :
    (m >>= f) env s =
      match m env s with
      | (Except.ok a, s1) => f a env s1
      | (Except.error c, s1) => (Except.error c, s1) := rfl

theorem pure_eval {α : Type} (a : α) (env : Env) (s : St) :
    (pure a : M α) env s = (Except.ok a, s) := rfl

/-- Full evaluation of `run_command` on an arbitrary environment. -/
theorem run_command_eval (env : Env) (s : St) (cmd : String) (cwd : Option String) :
    run_command cmd cwd env s =
      if env.exitCode cmd cwd = 0 then
        (Except.ok (), St.mk s.stdin (s.trace ++
          [Event.exec cmd cwd, Event.print (env.stdout cmd cwd)]))
      else
        (Except.error 1, St.mk s.stdin (s.trace ++
          [Event.exec cmd cwd, Event.print ("Error: " ++ env.stderr cmd cwd)])) := by
  by_cases h : env.exitCode cmd cwd = 0 <;>
    simp [run_command, emit, getEnv, printStr, exit1, bind_eval, h]

/-- Evaluation of `prompt_install` when the (stripped, lowercased)
answer is "y": the consent branch runs the install command. -/
theorem prompt_install_yes (env : Env) (tr : List Event) (tool ic i : String)
    (rest : List String) (h : lower (strip i) = "y") :
    prompt_install tool ic env (St.mk (i :: rest) tr) =
      run_command ic none env (St.mk rest (tr ++
        [Event.ask (tool ++ " не найден. Установить? (y/n): "),
         Event.print ("Устанавливаю " ++ tool ++ "...\")\n")])) := by
  simp [prompt_install, inputLine, readLine, emit, printStr, bind_eval, h,
    run_command_eval]

/-- Evaluation of `prompt_install` on any other answer: the refusal
branch terminates the process with status 1. -/
theorem prompt_install_no (env : Env) (tr : List Event) (tool ic i : String)
    (rest : List String) (h : lower (strip i) ≠ "y") :
    prompt_install tool ic env (St.mk (i :: rest) tr) =
      (Except.error 1, St.mk rest (tr ++
        [Event.ask (tool ++ " не найден. Установить? (y/n): "),
         Event.print (tool ++ " необходим для продолжения. Завершаю работу.")])) := by
  simp [prompt_install, inputLine, readLine, emit, printStr, exit1, bind_eval, h]

/-! Concrete host environments used to instantiate the theorems. -/

/-- A host with no executables at all; every command would succeed. -/
def envAbsentOk : Env :=
  Env.mk (fun _ => false) (fun _ _ => 0) (fun _ _ => "") (fun _ _ => "")

/-- A host where only `brew` is present; every command succeeds. -/
def envOnlyBrew : Env :=
  Env.mk (fun s => s == "brew") (fun _ _ => 0) (fun _ _ => "") (fun _ _ => "")

/-- A host where only `apt` is present; every command succeeds. -/
def envOnlyApt : Env :=
  Env.mk (fun s => s == "apt") (fun _ _ => 0) (fun _ _ => "") (fun _ _ => "")

/-- A host where every command fails with exit status 2 and stderr "boom". -/
def envAllFail : Env :=
  Env.mk (fun _ => false) (fun _ _ => 2) (fun _ _ => "") (fun _ _ => "boom")

/-! Claim theorems. -/

/-- C3: an external command that exits non-zero makes the Command Runner
print the captured standard error and terminate the process with exit
status 1, and no continuation of the same invocation runs afterwards; a
command that exits 0 makes it print the captured standard output and
return normally. -/
theorem run_command_fail_fast (env : Env) (s : St) (cmd : String) (cwd : Option String) :
    (env.exitCode cmd cwd ≠ 0 →
      run_command cmd cwd env s =
        (Except.error 1, St.mk s.stdin (s.trace ++
          [Event.exec cmd cwd, Event.print ("Error: " ++ env.stderr cmd cwd)])) ∧
      ∀ k : Unit → M Unit, (run_command cmd cwd >>= k) env s = run_command cmd cwd env s) ∧
    (env.exitCode cmd cwd = 0 →
      run_command cmd cwd env s =
        (Except.ok (), St.mk s.stdin (s.trace ++
          [Event.exec cmd cwd, Event.print (env.stdout cmd cwd)]))) := by
  constructor
  · intro h
    refine ⟨by simp [run_command_eval, h], fun k => ?_⟩
    simp [bind_eval, run_command_eval, h]
  · intro h
    simp [run_command_eval, h]

theorem run_command_fail_fast_witness :
    envAllFail.exitCode "make" none ≠ 0 ∧
    run_command "make" none envAllFail (St.mk [] []) =
      (Except.error 1, St.mk [] ([] ++
        [Event.exec "make" none, Event.print ("Error: " ++ envAllFail.stderr "make" none)])) :=
  ⟨by decide,
   ((run_command_fail_fast envAllFail (St.mk [] []) "make" none).1 (by decide)).1⟩

/-- C4: with no explicit choice, the resolver scans apt, brew, choco,
vcpkg in that order and returns the first present one; when none of the
four is present it terminates the process with exit status 1. -/
theorem detect_scans_in_order (env : Env) (s : St) :
    (env.which "apt" = true →
      detect_or_install_package_manager none env s =
        (Except.ok "apt", St.mk s.stdin (s.trace ++
          [Event.print "Обнаружен менеджер пакетов: apt"]))) ∧
    (env.which "apt" = false → env.which "brew" = true →
      detect_or_install_package_manager none env s =
        (Except.ok "brew", St.mk s.stdin (s.trace ++
          [Event.print "Обнаружен менеджер пакетов: brew"]))) ∧
    (env.which "apt" = false → env.which "brew" = false → env.which "choco" = true →
      detect_or_install_package_manager none env s =
        (Except.ok "choco", St.mk s.stdin (s.trace ++
          [Event.print "Обнаружен менеджер пакетов: choco"]))) ∧
    (env.which "apt" = false → env.which "brew" = false → env.which "choco" = false →
      env.which "vcpkg" = true →
      detect_or_install_package_manager none env s =
        (Except.ok "vcpkg", St.mk s.stdin (s.trace ++
          [Event.print "Обнаружен менеджер пакетов: vcpkg"]))) ∧
    (env.which "apt" = false → env.which "brew" = false → env.which "choco" = false →
      env.which "vcpkg" = false →
      detect_or_install_package_manager none env s =
        (Except.error 1, St.mk s.stdin (s.trace ++
          [Event.print "Менеджер пакетов не обнаружен."]))) := by
  refine ⟨?_, ?_, ?_, ?_, ?_⟩ <;> intros <;>
    simp [detect_or_install_package_manager, scan_pms, package_managers,
      getEnv, printStr, emit, exit1, bind_eval, pure_eval, *]

theorem detect_scans_in_order_witness :
    envOnlyBrew.which "apt" = false ∧ envOnlyBrew.which "brew" = true ∧
    detect_or_install_package_manager none envOnlyBrew (St.mk [] []) =
      (Except.ok "brew", St.mk [] ([] ++
        [Event.print "Обнаружен менеджер пакетов: brew"])) :=
  ⟨by decide, by decide,
   (detect_scans_in_order envOnlyBrew (St.mk [] [])).2.1 (by decide) (by decide)⟩

/-- C5: for a language not registered in the language registry,
`auto_build` terminates the process with exit status 1 having only
printed the diagnostic: the final state shows no package-manager
resolution happened (standard input untouched) and no external command
ran (no exec event in the trace it appends). -/
theorem unsupported_language_fails_fast (env : Env) (s : St)
    (language project_path : String) (pm : Option String)
    (h : languages.lookup language = none) :
    auto_build language project_path pm env s =
      (Except.error 1, St.mk s.stdin (s.trace ++
        [Event.print ("Неподдерживаемый язык: " ++ language)])) := by
  simp [auto_build, h, printStr, emit, exit1, bind_eval]

theorem unsupported_language_fails_fast_witness :
    languages.lookup "rust" = none ∧
    auto_build "rust" "/proj" none envAbsentOk (St.mk [] []) =
      (Except.error 1, St.mk [] ([] ++
        [Event.print ("Неподдерживаемый язык: " ++ "rust")])) :=
  ⟨rfl, unsupported_language_fails_fast envAbsentOk (St.mk [] []) "rust" "/proj" none rfl⟩

/-- C6: every build invocation that runs to completion decomposes as
handler lookup, then package-manager resolution, then that handler's
setup, then that handler's compile, each starting from the state the
previous step produced — in particular compile runs only after the same
invocation's setup succeeded. -/
theorem build_steps_in_order (env : Env) (s : St)
    (language project_path : String) (pm : Option String)
    (h : (auto_build language project_path pm env s).1 = Except.ok ()) :
    ∃ handler, languages.lookup language = some handler ∧
      ∃ pmv s1 s2,
        detect_or_install_package_manager pm env s = (Except.ok pmv, s1) ∧
        handler.setup env s1 = (Except.ok (), s2) ∧
        handler.compile project_path env s2 =
          auto_build language project_path pm env s := by
  cases hl : languages.lookup language with
  | none =>
    exact absurd h (by simp [auto_build, hl, bind_eval, printStr, emit, exit1])
  | some handler =>
    refine ⟨handler, rfl, ?_⟩
    have hab : auto_build language project_path pm env s =
        (detect_or_install_package_manager pm >>= fun _pm =>
          handler.setup >>= fun _ => handler.compile project_path) env s := by
      simp [auto_build, hl]
    rcases hd : detect_or_install_package_manager pm env s with ⟨r1, s1⟩
    cases r1 with
    | error c =>
      rw [hab, bind_eval, hd] at h
      simp at h
    | ok pmv =>
      rcases hs : handler.setup env s1 with ⟨r2, s2⟩
      cases r2 with
      | error c =>
        rw [hab, bind_eval, hd] at h
        simp [bind_eval, hs] at h
      | ok u =>
        cases u
        refine ⟨pmv, s1, s2, rfl, hs, ?_⟩
        rw [hab, bind_eval, hd]
        simp [bind_eval, hs]

theorem build_steps_in_order_witness :
    (auto_build "java" "/proj" none envOnlyBrew (St.mk [] [])).1 = Except.ok () ∧
    ∃ handler, languages.lookup "java" = some handler ∧
      ∃ pmv s1 s2,
        detect_or_install_package_manager none envOnlyBrew (St.mk [] []) =
          (Except.ok pmv, s1) ∧
        handler.setup envOnlyBrew s1 = (Except.ok (), s2) ∧
        handler.compile "/proj" envOnlyBrew s2 =
          auto_build "java" "/proj" none envOnlyBrew (St.mk [] []) :=
  ⟨rfl, build_steps_in_order envOnlyBrew (St.mk [] []) "java" "/proj" none rfl⟩

/-- C1: the claim fails on the code. With the explicitly chosen manager
"vcpkg" absent from the system, consent "y" given, and the bootstrap
command exiting 0, the resolver runs the bootstrap command but then
still terminates the process with exit status 1 — control falls through
to the method's final `sys.exit(1)` and the chosen kind is never
returned to the orchestrator. -/
theorem explicit_bootstrap_consent_still_exits :
    (detect_or_install_package_manager (some "vcpkg") envAbsentOk (St.mk ["y"] [])).1 =
      Except.error 1 ∧
    Event.exec (get_install_command "vcpkg") none ∈
      (detect_or_install_package_manager (some "vcpkg") envAbsentOk (St.mk ["y"] [])).2.trace :=
  ⟨rfl, by decide⟩

/-- C2: the claim fails on the code. With only apt present the resolver
returns "apt", yet the python setup issues its installs through the
hardcoded "brew" install-command template — the trace of the whole
build contains "brew install python3" and no apt-template install. -/
theorem setup_ignores_resolved_manager :
    (detect_or_install_package_manager none envOnlyApt (St.mk ["n", "n"] [])).1 =
      Except.ok "apt" ∧
    Event.exec "brew install python3" none ∈
      (auto_build "python" "/proj" none envOnlyApt (St.mk ["n", "n"] [])).2.trace ∧
    Event.exec "sudo apt-get install -y python3" none ∉
      (auto_build "python" "/proj" none envOnlyApt (St.mk ["n", "n"] [])).2.trace :=
  ⟨rfl, by decide, by decide⟩

/-- C7: a consent prompt takes the yes branch exactly when the input,
stripped and lowercased, is "y", and the no branch on every other
input; refusing the required bootstrap prompt terminates the process
with exit status 1, while refusing the optional packaging prompt of
`compile_python` takes the non-fatal alternate path of running the
project through the interpreter. -/
theorem prompt_semantics (env : Env) (tr : List Event)
    (tool ic pp i : String) (rest : List String) :
    (lower (strip i) = "y" →
      prompt_install tool ic env (St.mk (i :: rest) tr) =
        run_command ic none env (St.mk rest (tr ++
          [Event.ask (tool ++ " не найден. Установить? (y/n): "),
           Event.print ("Устанавливаю " ++ tool ++ "...\")\n")]))) ∧
    (lower (strip i) ≠ "y" →
      prompt_install tool ic env (St.mk (i :: rest) tr) =
        (Except.error 1, St.mk rest (tr ++
          [Event.ask (tool ++ " не найден. Установить? (y/n): "),
           Event.print (tool ++ " необходим для продолжения. Завершаю работу.")]))) ∧
    (lower (strip i) = "y" →
      compile_python pp env (St.mk (i :: rest) tr) =
        run_command ("pyinstaller --onefile " ++ pp) none env (St.mk rest (tr ++
          [Event.ask "Скомпилировать Python проект в бинарный файл? (y/n): ",
           Event.print "Компиляция Python в бинарный файл..."]))) ∧
    (lower (strip i) ≠ "y" →
      compile_python pp env (St.mk (i :: rest) tr) =
        run_command ("python3 " ++ pp) none env (St.mk rest (tr ++
          [Event.ask "Скомпилировать Python проект в бинарный файл? (y/n): ",
           Event.print "Запуск Python проекта..."]))) := by
  refine ⟨prompt_install_yes env tr tool ic i rest,
          prompt_install_no env tr tool ic i rest, ?_, ?_⟩ <;>
    intro h <;>
    simp [compile_python, inputLine, readLine, emit, printStr, bind_eval, h,
      run_command_eval]

theorem prompt_semantics_witness :
    lower (strip " Y ") = "y" ∧
    prompt_install "apt" "" envAbsentOk (St.mk [" Y "] []) =
      run_command "" none envAbsentOk (St.mk [] ([] ++
        [Event.ask ("apt" ++ " не найден. Установить? (y/n): "),
         Event.print ("Устанавливаю " ++ "apt" ++ "...\")\n")])) :=
  ⟨by decide, (prompt_semantics envAbsentOk [] "apt" "" "p" " Y " []).1 (by decide)⟩

/-- C8: `compile_cpp` creates (or, `exist_ok=True`, reuses) the build
subdirectory of the project path, runs the configuration command
"cmake .." in it, and runs "make" in the same directory only when
configuration exited 0; when configuration fails the process terminates
with status 1 and no make command is ever executed. -/
theorem compile_cpp_two_step (env : Env) (s : St) (project_path : String) :
    compile_cpp project_path env s =
      if env.exitCode "cmake .." (some (path_join project_path "build")) = 0 then
        run_command "make" (some (path_join project_path "build")) env
          (St.mk s.stdin (s.trace ++
            [Event.print "Компиляция C++ проекта...",
             Event.makedirs (path_join project_path "build"),
             Event.exec "cmake .." (some (path_join project_path "build")),
             Event.print (env.stdout "cmake .." (some (path_join project_path "build")))]))
      else
        (Except.error 1, St.mk s.stdin (s.trace ++
          [Event.print "Компиляция C++ проекта...",
           Event.makedirs (path_join project_path "build"),
           Event.exec "cmake .." (some (path_join project_path "build")),
           Event.print ("Error: " ++
             env.stderr "cmake .." (some (path_join project_path "build")))])) := by
  by_cases h : env.exitCode "cmake .." (some (path_join project_path "build")) = 0 <;>
    simp [compile_cpp, emit, printStr, exit1, bind_eval, run_command_eval, h]

/-- C9: `compile_java` first compiles all `.java` files directly under
the project path, and only when that compilation exited 0 runs the
fixed entry class Main with the project path as the classpath root; a
failing compilation terminates the process with status 1 before any
run. -/
theorem compile_java_then_run (env : Env) (s : St) (project_path : String) :
    compile_java project_path env s =
      if env.exitCode ("javac " ++ project_path ++ "/*.java") none = 0 then
        run_command ("java -cp " ++ project_path ++ " Main") none env
          (St.mk s.stdin (s.trace ++
            [Event.print "Компиляция Java проекта...",
             Event.exec ("javac " ++ project_path ++ "/*.java") none,
             Event.print (env.stdout ("javac " ++ project_path ++ "/*.java") none),
             Event.print "Запуск Java проекта..."]))
      else
        (Except.error 1, St.mk s.stdin (s.trace ++
          [Event.print "Компиляция Java проекта...",
           Event.exec ("javac " ++ project_path ++ "/*.java") none,
           Event.print ("Error: " ++
             env.stderr ("javac " ++ project_path ++ "/*.java") none)])) := by
  by_cases h : env.exitCode ("javac " ++ project_path ++ "/*.java") none = 0 <;>
    simp [compile_java, emit, printStr, exit1, bind_eval, run_command_eval, h]

/-- C10: for every manager other than brew and vcpkg (so in particular
apt and choco), the bootstrap command looked up by
`get_install_command` is the empty string, and consenting to the
bootstrap prompt for such a manager therefore runs the empty shell
command. -/
theorem bootstrap_empty_for_unscripted (m : String)
    (h1 : m ≠ "brew") (h2 : m ≠ "vcpkg") :
    get_install_command m = "" ∧
    ∀ (env : Env) (tr : List Event) (i : String) (rest : List String),
      lower (strip i) = "y" →
      prompt_install m (get_install_command m) env (St.mk (i :: rest) tr) =
        run_command "" none env (St.mk rest (tr ++
          [Event.ask (m ++ " не найден. Установить? (y/n): "),
           Event.print ("Устанавливаю " ++ m ++ "...\")\n")])) := by
  have hg : get_install_command m = "" := by
    simp [get_install_command, h1, h2]
  refine ⟨hg, fun env tr i rest hy => ?_⟩
  rw [hg]
  exact prompt_install_yes env tr m "" i rest hy

theorem bootstrap_empty_for_unscripted_witness :
    ("apt" : String) ≠ "brew" ∧ ("apt" : String) ≠ "vcpkg" ∧
    lower (strip " y") = "y" ∧
    prompt_install "apt" (get_install_command "apt") envOnlyApt (St.mk [" y"] []) =
      run_command "" none envOnlyApt (St.mk [] ([] ++
        [Event.ask ("apt" ++ " не найден. Установить? (y/n): "),
         Event.print ("Устанавливаю " ++ "apt" ++ "...\")\n")])) :=
  ⟨by decide, by decide, by decide,
   (bootstrap_empty_for_unscripted "apt" (by decide) (by decide)).2
     envOnlyApt [] " y" [] (by decide)⟩

end AutoBuilder
